import Mathlib

/-!
Shallow embedding of `src/simple_analyzer.py` (the CSV → dashboard-report
aggregation pipeline) and proofs about it.

Modelling conventions:
* Money (`total`, revenue sums, means) is `ℚ`; Python's `round(x, 2)` is
  modelled by `round2` (round half up to two decimals on exact rationals).
* Dates are `Int` (days); an unparseable date is `none` (polars
  `str.to_datetime(strict=False)` yields null).  Whole-day differences of
  day-valued dates are exact integer subtraction.
* A raw `customer_id` cell is modelled by `CustId`: `id` is its key for
  grouping/equality, `num` records whether Python's `float()` conversion
  of it succeeds (it fails on non-numeric strings and raises `ValueError`).
* `analyze` returns `Option Report`: `none` models the process aborting
  with no output document (`sys.exit(1)` on missing required columns, or
  an uncaught exception).
* Wall-clock time (`datetime.now()`) enters only through the `now`
  parameter of `analyze`, used exactly where the source uses
  `datetime.now()` (the `except` fallback of the activity stage).
-/

namespace SimpleAnalyzer

/-- A raw `customer_id` value: `id` is the grouping key, `num` is whether
`float()` conversion of the raw value succeeds. -/
structure CustId where
  id : Nat
  num : Bool
deriving DecidableEq, Repr

/-- One CSV row after loading (`pl.read_csv` + best-effort date parsing):
`date = none` models an unparseable date, `country = none` a null country
cell. -/
structure Row where
  customer_id : CustId
  transaction_id : Nat
  total : ℚ
  date : Option Int
  country : Option String
deriving DecidableEq, Repr

/-- The loaded CSV: the column names present in the file, and the rows. -/
structure Csv where
  cols : List String
  rows : List Row
deriving DecidableEq, Repr

/-- `DACH_COUNTRIES = ["Germany", "Austria", "Switzerland"]` (line 13). -/
def DACH_COUNTRIES : List String := ["Germany", "Austria", "Switzerland"]

/-- `required_columns = ['customer_id', 'transaction_id', 'total', 'date']`
(line 43). -/
def required_columns : List String := ["customer_id", "transaction_id", "total", "date"]

/-- `missing_columns = [col for col in required_columns if col not in df.columns]`
(line 44). -/
def missing_columns (csv : Csv) : List String :=
  required_columns.filter (fun c => decide (c ∉ csv.cols))

/-- Python `round(q, 2)`: round to two decimal places (modelled half-up on
exact rationals). -/
def round2 (q : ℚ) : ℚ := (Rat.floor (q * 100 + 1/2) : ℚ) / 100

/-- Per-customer rollup produced by the `group_by('customer_id')`
aggregation (lines 60-64). -/
structure Rollup where
  customer_id : CustId
  anzahl_bestellungen : Nat
  gesamt_umsatz : ℚ
  durchschnitt_bestellung : ℚ
deriving DecidableEq, Repr

/-- The distinct customer keys of the input (group_by keys). -/
def customer_keys (rows : List Row) : List CustId :=
  (rows.map (·.customer_id)).dedup

/-- All rows of one customer. -/
def rows_of (rows : List Row) (k : CustId) : List Row :=
  rows.filter (fun r => decide (r.customer_id = k))

/-- The rollup of one customer: order count, revenue sum, revenue mean
(lines 60-64). -/
def rollup_of (rows : List Row) (k : CustId) : Rollup :=
  let ts := rows_of rows k
  { customer_id := k
    anzahl_bestellungen := ts.length
    gesamt_umsatz := (ts.map (·.total)).sum
    durchschnitt_bestellung := (ts.map (·.total)).sum / (ts.length : ℚ) }

/-- `kunden_umsatz`: one rollup per distinct customer (lines 60-64). -/
def kunden_umsatz (rows : List Row) : List Rollup :=
  (customer_keys rows).map (rollup_of rows)

/-- Stable descending sort by a rational key (Python `list.sort(key=...,
reverse=True)` / polars `sort(..., descending=True)`). -/
def sort_desc {α : Type} (key : α → ℚ) (l : List α) : List α :=
  List.insertionSort (fun x y => key y ≤ key x) l

/-- Ascending sort of rationals (the sorted order underlying `quantile`). -/
def sort_asc (l : List ℚ) : List ℚ :=
  List.insertionSort (· ≤ ·) l

/-- Polars `Series.quantile(0.9)` with its default `nearest` interpolation:
the ascending-sorted value at index `round(0.9 * (n - 1))` (round half away
from zero, i.e. `(9*(n-1)+5)/10` in integer arithmetic). -/
def quantile90 (xs : List ℚ) : ℚ :=
  (sort_asc xs).getD ((9 * (xs.length - 1) + 5) / 10) 0

/-- The revenues of all customers, in group order. -/
def gesamt_list (rows : List Row) : List ℚ :=
  (kunden_umsatz rows).map (·.gesamt_umsatz)

/-- `vip_threshold = kunden_umsatz['gesamt_umsatz'].quantile(0.9)` (line 75). -/
def vip_threshold (rows : List Row) : ℚ :=
  quantile90 (gesamt_list rows)

/-- Modelled from the spec: the *linear-interpolation* 90th percentile the
spec prescribes for `vip_threshold` (§4.3) — with the n values sorted
ascending as r_0..r_(n-1), the value at fractional rank `0.9*(n-1)`,
interpolating linearly between the two adjacent sorted values.  The source
(line 75) instead uses polars' default `nearest` interpolation; this
definition exists to compare the two. -/
def linear_percentile90 (xs : List ℚ) : ℚ :=
  let s := sort_asc xs
  let k : Nat := 9 * (xs.length - 1) / 10
  let rank : ℚ := 9 * ((xs.length : ℚ) - 1) / 10
  let frac : ℚ := rank - (k : ℚ)
  s.getD k 0 + frac * (s.getD (k + 1) (s.getD k 0) - s.getD k 0)

/-- `vip_df = kunden_umsatz.filter(gesamt_umsatz >= vip_threshold)` (line 79). -/
def vip_df (rows : List Row) : List Rollup :=
  (kunden_umsatz rows).filter (fun r => decide (vip_threshold rows ≤ r.gesamt_umsatz))

/-- `premium_df = kunden_umsatz.filter((gesamt_umsatz >= 1000) & (gesamt_umsatz < vip_threshold))`
(line 80). -/
def premium_df (rows : List Row) : List Rollup :=
  (kunden_umsatz rows).filter
    (fun r => decide (1000 ≤ r.gesamt_umsatz ∧ r.gesamt_umsatz < vip_threshold rows))

/-- `standard_df = kunden_umsatz.filter((gesamt_umsatz >= 200) & (gesamt_umsatz < 1000))`
(line 81). -/
def standard_df (rows : List Row) : List Rollup :=
  (kunden_umsatz rows).filter
    (fun r => decide (200 ≤ r.gesamt_umsatz ∧ r.gesamt_umsatz < 1000))

/-- `gering_df = kunden_umsatz.filter(gesamt_umsatz < 200)` (line 82). -/
def gering_df (rows : List Row) : List Rollup :=
  (kunden_umsatz rows).filter (fun r => decide (r.gesamt_umsatz < 200))

/-- `total_umsatz = kunden_umsatz['gesamt_umsatz'].sum()` (line 85). -/
def total_umsatz (rows : List Row) : ℚ :=
  (gesamt_list rows).sum

/-- One entry of `report_umsatz` (lines 97-103). -/
structure SegRow where
  umsatz_segment : String
  anzahl_kunden : Nat
  segment_umsatz : ℚ
  avg_umsatz : ℚ
  umsatz_anteil_prozent : ℚ
deriving DecidableEq, Repr

/-- The dict appended for one revenue segment (lines 88-103): note the row
is appended even when the segment is empty. -/
def seg_row (name : String) (seg : List Rollup) (total : ℚ) : SegRow :=
  let s : ℚ := (seg.map (·.gesamt_umsatz)).sum
  let n := seg.length
  { umsatz_segment := name
    anzahl_kunden := n
    segment_umsatz := round2 s
    avg_umsatz := if 0 < n then round2 (s / (n : ℚ)) else 0
    umsatz_anteil_prozent := if 0 < total then round2 (s / total * 100) else 0 }

/-- `report_umsatz`: the four segment rows, sorted by `segment_umsatz`
descending (lines 87-107). -/
def report_umsatz (rows : List Row) : List SegRow :=
  sort_desc (·.segment_umsatz)
    [seg_row "VIP" (vip_df rows) (total_umsatz rows),
     seg_row "Premium" (premium_df rows) (total_umsatz rows),
     seg_row "Standard" (standard_df rows) (total_umsatz rows),
     seg_row "Gering" (gering_df rows) (total_umsatz rows)]

/-- All parseable dates of the input, in row order. -/
def all_dates (rows : List Row) : List Int :=
  rows.filterMap (·.date)

/-- `max_date = df['date'].max()` (line 115): `none` when no date is
parseable (the column is all null). -/
def max_date (rows : List Row) : Option Int :=
  (all_dates rows).max?

/-- The parseable dates of one customer. -/
def cust_dates (rows : List Row) (k : CustId) : List Int :=
  (rows_of rows k).filterMap (·.date)

/-- One entry of `kunden_last_order` (lines 119-126): last parseable
order date and days inactive, both null when no date of the customer
parses. -/
structure LastOrder where
  customer_id : CustId
  letzte_bestellung : Option Int
  tage_inaktiv : Option Int
deriving DecidableEq, Repr

/-- `kunden_last_order` (lines 114-126): per customer, the max parseable
date and `max_date - letzte_bestellung` in whole days.  When no date in
the dataset is parseable, evaluating `(max_date - col).dt.total_days()`
with `max_date = None` raises, and the `except` branch (line 172) leaves
`kunden_last_order` as an empty frame. -/
def kunden_last_order (rows : List Row) : List LastOrder :=
  match max_date rows with
  | none => []
  | some m =>
    (customer_keys rows).map fun k =>
      let lb := (cust_dates rows k).max?
      { customer_id := k
        letzte_bestellung := lb
        tage_inaktiv := lb.map (fun d => m - d) }

/-- `aktiv = kunden_last_order.filter(tage_inaktiv <= 30)` (line 129);
a null `tage_inaktiv` fails the comparison and is dropped. -/
def aktiv_df (rows : List Row) : List LastOrder :=
  (kunden_last_order rows).filter (fun r => r.tage_inaktiv.any (fun t => decide (t ≤ 30)))

/-- `inaktiv = kunden_last_order.filter((tage_inaktiv > 30) & (tage_inaktiv <= 90))`
(line 130). -/
def inaktiv_df (rows : List Row) : List LastOrder :=
  (kunden_last_order rows).filter
    (fun r => r.tage_inaktiv.any (fun t => decide (30 < t ∧ t ≤ 90)))

/-- `verloren = kunden_last_order.filter(tage_inaktiv > 90)` (line 131). -/
def verloren_df (rows : List Row) : List LastOrder :=
  (kunden_last_order rows).filter (fun r => r.tage_inaktiv.any (fun t => decide (90 < t)))

/-- One entry of `report_aktivitaet` (lines 142-161). -/
structure AktRow where
  aktivitaet_segment : String
  anzahl_kunden : Nat
  segment_umsatz : ℚ
  avg_umsatz : ℚ
deriving DecidableEq, Repr

/-- Revenue of an activity segment: sum of `gesamt_umsatz` over the
rollups whose customer is in the segment (lines 134-136). -/
def seg_umsatz (rows : List Row) (seg : List LastOrder) : ℚ :=
  (((kunden_umsatz rows).filter
      (fun r => decide (r.customer_id ∈ seg.map (·.customer_id)))).map (·.gesamt_umsatz)).sum

/-- The dict built for one activity segment (lines 142-161). -/
def akt_row (name : String) (rows : List Row) (seg : List LastOrder) : AktRow :=
  let s := seg_umsatz rows seg
  let n := seg.length
  { aktivitaet_segment := name
    anzahl_kunden := n
    segment_umsatz := round2 s
    avg_umsatz := if 0 < n then round2 (s / (n : ℚ)) else 0 }

/-- `report_aktivitaet` (lines 114-171): the three activity rows sorted by
revenue descending, or `[]` when the date computation raised (no
parseable date). -/
def report_aktivitaet (rows : List Row) : List AktRow :=
  match max_date rows with
  | none => []
  | some _ =>
    sort_desc (·.segment_umsatz)
      [akt_row "Aktiv" rows (aktiv_df rows),
       akt_row "Inaktiv" rows (inaktiv_df rows),
       akt_row "Verloren" rows (verloren_df rows)]

/-- Whether a (possibly null) country cell is a DACH country
(`row['country'] in DACH_COUNTRIES`; null is not). -/
def is_dach (c : Option String) : Bool :=
  match c with
  | some s => decide (s ∈ DACH_COUNTRIES)
  | none => false

/-- `dach_kunden_ids`: distinct customers having at least one DACH order
(lines 186-187). -/
def dach_kunden_ids (rows : List Row) : List CustId :=
  ((rows.filter (fun r => is_dach r.country)).map (·.customer_id)).dedup

/-- One entry of `report_dach` (lines 194-208). -/
structure DachRow where
  ist_dach_kunde : String
  anzahl_kunden : Nat
  gesamt_umsatz : ℚ
  avg_umsatz : ℚ
deriving DecidableEq, Repr

/-- The `report_dach` row for one side of the DACH / non-DACH split. -/
def dach_row (label : String) (seg : List Rollup) : DachRow :=
  let s := (seg.map (·.gesamt_umsatz)).sum
  { ist_dach_kunde := label
    anzahl_kunden := seg.length
    gesamt_umsatz := round2 s
    avg_umsatz := round2 (s / (seg.length : ℚ)) }

/-- `report_dach` (lines 184-208): the Ja/Nein split, each side emitted
only when non-empty; `[]` when the `country` column is absent. -/
def report_dach (csv : Csv) : List DachRow :=
  if "country" ∈ csv.cols then
    let dach := (kunden_umsatz csv.rows).filter
      (fun r => decide (r.customer_id ∈ dach_kunden_ids csv.rows))
    let nicht := (kunden_umsatz csv.rows).filter
      (fun r => decide (r.customer_id ∉ dach_kunden_ids csv.rows))
    (if dach.length > 0 then [dach_row "Ja" dach] else []) ++
      (if nicht.length > 0 then [dach_row "Nein" nicht] else [])
  else []

/-- One entry of the per-country statistics (lines 211-223). -/
structure LandRow where
  country : Option String
  anzahl_bestellungen : Nat
  gesamt_umsatz : ℚ
  avg_bestellung : ℚ
deriving DecidableEq, Repr

/-- The distinct country values of the input (group_by keys; a null cell
is its own group). -/
def land_keys (rows : List Row) : List (Option String) :=
  (rows.map (·.country)).dedup

/-- The rows of one country group. -/
def land_rows (rows : List Row) (c : Option String) : List Row :=
  rows.filter (fun r => decide (r.country = c))

/-- Revenue of one country group (pre-rounding; the frame is sorted on
this value). -/
def land_umsatz (rows : List Row) (c : Option String) : ℚ :=
  ((land_rows rows c).map (·.total)).sum

/-- The dict built for one country (lines 218-223). -/
def land_row (rows : List Row) (c : Option String) : LandRow :=
  let ts := land_rows rows c
  { country := c
    anzahl_bestellungen := ts.length
    gesamt_umsatz := round2 (land_umsatz rows c)
    avg_bestellung := round2 (land_umsatz rows c / (ts.length : ℚ)) }

/-- `laender_stats` sorted by `gesamt_umsatz` descending (lines 211-215),
as the list of country keys in report order. -/
def laender_sorted (rows : List Row) : List (Option String) :=
  sort_desc (land_umsatz rows) (land_keys rows)

/-- `report_dach_laender` (lines 217-227): the DACH entries of the sorted
country statistics; `[]` when `country` is absent. -/
def report_dach_laender (csv : Csv) : List LandRow :=
  if "country" ∈ csv.cols then
    ((laender_sorted csv.rows).filter is_dach).map (land_row csv.rows)
  else []

/-- `report_andere_laender` (lines 217-230): the non-DACH entries of the
sorted country statistics; `[]` when `country` is absent. -/
def report_andere_laender (csv : Csv) : List LandRow :=
  if "country" ∈ csv.cols then
    ((laender_sorted csv.rows).filter (fun c => !is_dach c)).map (land_row csv.rows)
  else []

/-- `vip_mit_datum`: each VIP rollup left-joined with its last-order data
(line 250). -/
structure VipJoin where
  customer_id : CustId
  anzahl_bestellungen : Nat
  gesamt_umsatz : ℚ
  letzte_bestellung : Option Int
  tage_inaktiv : Option Int
deriving DecidableEq, Repr

/-- The left join of `vip_kunden` with `kunden_last_order` on
`customer_id` (line 250). -/
def vip_mit_datum (rows : List Row) : List VipJoin :=
  (vip_df rows).map fun v =>
    match (kunden_last_order rows).find? (fun lo => decide (lo.customer_id = v.customer_id)) with
    | some lo =>
      { customer_id := v.customer_id
        anzahl_bestellungen := v.anzahl_bestellungen
        gesamt_umsatz := v.gesamt_umsatz
        letzte_bestellung := lo.letzte_bestellung
        tage_inaktiv := lo.tage_inaktiv }
    | none =>
      { customer_id := v.customer_id
        anzahl_bestellungen := v.anzahl_bestellungen
        gesamt_umsatz := v.gesamt_umsatz
        letzte_bestellung := none
        tage_inaktiv := none }

/-- The full inactive-VIP set: `vip_mit_datum.filter(tage_inaktiv > 30)`
(lines 253-258); a null `tage_inaktiv` fails the comparison. -/
def inaktive_vips_all (rows : List Row) : List VipJoin :=
  (vip_mit_datum rows).filter (fun r => r.tage_inaktiv.any (fun t => decide (30 < t)))

/-- The capped list: inactive VIPs sorted by revenue descending, top 30
(lines 253-255). -/
def inaktive_vips_top (rows : List Row) : List VipJoin :=
  (sort_desc (·.gesamt_umsatz) (inaktive_vips_all rows)).take 30

/-- The guard `len(kunden_last_order) > 0 and len(vip_kunden) > 0`
(line 248). -/
def risk_guard (rows : List Row) : Bool :=
  !(kunden_last_order rows).isEmpty && !(vip_df rows).isEmpty

/-- One entry of `top_inaktive_vips` (lines 267-273). -/
structure TopVip where
  customer_id : Nat
  gesamt_umsatz : ℚ
  anzahl_bestellungen : Nat
  letzte_bestellung : Option Int
  tage_inaktiv : Int
deriving DecidableEq, Repr

/-- The dict appended for one inactive VIP (lines 267-273):
`float(row['customer_id'])` succeeds only on a numeric id. -/
def mk_top_vip (v : VipJoin) : TopVip :=
  { customer_id := v.customer_id.id
    gesamt_umsatz := round2 v.gesamt_umsatz
    anzahl_bestellungen := v.anzahl_bestellungen
    letzte_bestellung := v.letzte_bestellung
    tage_inaktiv := v.tage_inaktiv.getD 0 }

/-- The serialization loop (lines 260-273): `float(row['customer_id'])`
raises `ValueError` on a non-numeric id; the exception is caught by the
surrounding `try` (line 278), so the appends made before it survive and
the rest of the list is dropped. -/
def serialize_top : List VipJoin → List TopVip
  | [] => []
  | v :: rest => if v.customer_id.num then mk_top_vip v :: serialize_top rest else []

/-- `top_inaktive_vips` (lines 240-273): empty unless the guard holds;
otherwise the serialized capped list. -/
def top_inaktive_vips (rows : List Row) : List TopVip :=
  if risk_guard rows then serialize_top (inaktive_vips_top rows) else []

/-- `inaktive_vips_count` (lines 242, 257): size of the *full* inactive-VIP
set, computed before the serialization loop. -/
def inaktive_vips_count (rows : List Row) : Nat :=
  if risk_guard rows then (inaktive_vips_all rows).length else 0

/-- `verlorener_umsatz_total` (lines 241, 258): revenue of the *full*
inactive-VIP set, computed before the serialization loop. -/
def verlorener_umsatz_total (rows : List Row) : ℚ :=
  if risk_guard rows then ((inaktive_vips_all rows).map (·.gesamt_umsatz)).sum else 0

/-- The assembled dashboard document (lines 290-301).  `maxDate` is the
calendar date rendered at lines 285-288, modelled by its day number. -/
structure Report where
  maxDate : Int
  kundenGesamt : Nat
  inaktiveVips : Nat
  verlorenerUmsatz : ℚ
  reportUmsatz : List SegRow
  reportAktivitaet : List AktRow
  reportDach : List DachRow
  reportDachLaender : List LandRow
  reportAndereLaender : List LandRow
  topInaktiveVips : List TopVip
deriving DecidableEq, Repr

/-- The report assembled on the success path (lines 290-301).  `now` is
the wall-clock date: it enters only through the `except` fallback
`max_date = datetime.now()` (line 173), taken exactly when no date in the
input is parseable. -/
def build_report (now : Int) (csv : Csv) : Report :=
  { maxDate := (max_date csv.rows).getD now
    kundenGesamt := (kunden_umsatz csv.rows).length
    inaktiveVips := inaktive_vips_count csv.rows
    verlorenerUmsatz := round2 (verlorener_umsatz_total csv.rows)
    reportUmsatz := report_umsatz csv.rows
    reportAktivitaet := report_aktivitaet csv.rows
    reportDach := report_dach csv
    reportDachLaender := report_dach_laender csv
    reportAndereLaender := report_andere_laender csv
    topInaktiveVips := top_inaktive_vips csv.rows }

/-- The whole run of `analyze_csv` on a loaded CSV.  `none` models the
process aborting with no output document: `sys.exit(1)` on missing
required columns (lines 42-47), and the uncaught `TypeError` at line 76
(formatting the `None` quantile of an empty customer set with `:,.2f`)
on an input with no data rows. -/
def analyze (now : Int) (csv : Csv) : Option Report :=
  if missing_columns csv ≠ [] then none
  else if csv.rows = [] then none
  else some (build_report now csv)

/-! ### Concrete inputs used as witnesses and counterexamples -/

/-- The spec's scenario input: three customers with revenues 50, 500 and
5000, all dates parseable, no `country` column. -/
def csv_scenario : Csv :=
  { cols := ["customer_id", "transaction_id", "total", "date"]
    rows :=
      [{ customer_id := ⟨1, true⟩, transaction_id := 1, total := 50,
         date := some 100, country := none },
       { customer_id := ⟨2, true⟩, transaction_id := 2, total := 500,
         date := some 90, country := none },
       { customer_id := ⟨3, true⟩, transaction_id := 3, total := 5000,
         date := some 80, country := none }] }

/-- A single customer with revenue 500: the 90th percentile is 500 itself,
so `vip_threshold = 500 < 1000`. -/
def csv_one : Csv :=
  { cols := ["customer_id", "transaction_id", "total", "date"]
    rows :=
      [{ customer_id := ⟨1, true⟩, transaction_id := 1, total := 500,
         date := some 0, country := none }] }

/-- Two customers with revenues 0 and 100: the linear-interpolation 90th
percentile is 90, the nearest-rank percentile is 100. -/
def csv_two : Csv :=
  { cols := ["customer_id", "transaction_id", "total", "date"]
    rows :=
      [{ customer_id := ⟨1, true⟩, transaction_id := 1, total := 0,
         date := some 0, country := none },
       { customer_id := ⟨2, true⟩, transaction_id := 2, total := 100,
         date := some 0, country := none }] }

/-- One data row whose date fails to parse: the dataset has no parseable
date at all. -/
def csv_nodate : Csv :=
  { cols := ["customer_id", "transaction_id", "total", "date"]
    rows :=
      [{ customer_id := ⟨1, true⟩, transaction_id := 1, total := 100,
         date := none, country := none }] }

/-- A VIP with a non-numeric `customer_id` (so `float()` raises), inactive
40 days (revenue 300, the 90th-percentile threshold of this input); a
second active customer fixes the dataset maximum date. -/
def csv_badid : Csv :=
  { cols := ["customer_id", "transaction_id", "total", "date"]
    rows :=
      [{ customer_id := ⟨1, true⟩, transaction_id := 1, total := 100,
         date := some 40, country := none },
       { customer_id := ⟨2, false⟩, transaction_id := 2, total := 300,
         date := some 0, country := none }] }

/-- Two VIPs (tied revenue 300, the 90th-percentile threshold of this
input), one inactive 40 days and one inactive 20 days, plus a small
active customer fixing the maximum date. -/
def csv_vips : Csv :=
  { cols := ["customer_id", "transaction_id", "total", "date"]
    rows :=
      [{ customer_id := ⟨1, true⟩, transaction_id := 1, total := 10,
         date := some 100, country := none },
       { customer_id := ⟨2, true⟩, transaction_id := 2, total := 300,
         date := some 60, country := none },
       { customer_id := ⟨3, true⟩, transaction_id := 3, total := 300,
         date := some 80, country := none }] }

/-- An input missing the required `date` column. -/
def csv_missing : Csv :=
  { cols := ["customer_id", "transaction_id", "total"]
    rows := [] }

/-- An input with all required columns but no data rows. -/
def csv_empty : Csv :=
  { cols := ["customer_id", "transaction_id", "total", "date"]
    rows := [] }

/-! ### Basic lemmas about the embedded operations -/

lemma sort_desc_perm {α : Type} (key : α → ℚ) (l : List α) :
    (sort_desc key l).Perm l :=
  List.perm_insertionSort _ l

lemma sort_desc_sorted {α : Type} (key : α → ℚ) (l : List α) :
    (sort_desc key l).Pairwise (fun x y => key y ≤ key x) := by
  letI : IsTotal α (fun x y => key y ≤ key x) := ⟨fun a b => le_total (key b) (key a)⟩
  letI : IsTrans α (fun x y => key y ≤ key x) := ⟨fun _ _ _ h1 h2 => le_trans h2 h1⟩
  exact List.sorted_insertionSort _ l

lemma sort_asc_perm (l : List ℚ) : (sort_asc l).Perm l :=
  List.perm_insertionSort _ l

lemma int_max?_mem {l : List Int} {m : Int} (h : l.max? = some m) : m ∈ l :=
  List.max?_mem (fun _ _ => max_choice _ _) h

lemma int_le_max? {l : List Int} {m : Int} (h : l.max? = some m) : ∀ x ∈ l, x ≤ m :=
  (List.max?_le_iff (fun _ _ _ => max_le_iff) h).mp le_rfl

lemma rat_floor_mono {q r : ℚ} (h : q ≤ r) : Rat.floor q ≤ Rat.floor r := by
  rw [Rat.le_floor]
  exact le_trans (Rat.le_floor.mp le_rfl) h

lemma round2_mono {q r : ℚ} (h : q ≤ r) : round2 q ≤ round2 r := by
  unfold round2
  have h2 : q * 100 + 1/2 ≤ r * 100 + 1/2 := by linarith
  have h3 : (Rat.floor (q * 100 + 1/2) : ℚ) ≤ (Rat.floor (r * 100 + 1/2) : ℚ) := by
    exact_mod_cast rat_floor_mono h2
  linarith

lemma serialize_top_eq (l : List VipJoin) :
    serialize_top l = (l.takeWhile (fun v => v.customer_id.num)).map mk_top_vip := by
  induction l with
  | nil => rfl
  | cons v rest ih =>
    by_cases h : v.customer_id.num = true <;>
      simp [serialize_top, List.takeWhile_cons, h, ih]

lemma serialize_top_all_num (l : List VipJoin) (h : ∀ v ∈ l, v.customer_id.num = true) :
    serialize_top l = l.map mk_top_vip := by
  rw [serialize_top_eq, List.takeWhile_eq_self_iff.mpr h]

lemma takeWhile_length_lt {α : Type} (p : α → Bool) (l : List α)
    (h : ∃ x ∈ l, p x = false) :
    (l.takeWhile p).length < l.length := by
  induction l with
  | nil => simp at h
  | cons a l ih =>
    obtain ⟨x, hx, hpx⟩ := h
    by_cases hpa : p a = true
    · rcases List.mem_cons.mp hx with rfl | hxl
      · rw [hpa] at hpx; cases hpx
      · have := ih ⟨x, hxl, hpx⟩
        simp only [List.takeWhile_cons, hpa, if_true, List.length_cons]
        omega
    · simp only [List.takeWhile_cons, Bool.eq_false_iff.mpr hpa, List.length_cons]
      simp only [Bool.false_eq_true, if_false, List.length_nil]
      omega

lemma filter_four_length {α : Type} (p1 p2 p3 p4 : α → Bool) (l : List α)
    (h : ∀ x ∈ l, (p1 x).toNat + (p2 x).toNat + (p3 x).toNat + (p4 x).toNat = 1) :
    (l.filter p1).length + (l.filter p2).length + (l.filter p3).length +
      (l.filter p4).length = l.length := by
  induction l with
  | nil => simp
  | cons a l ih =>
    have ha := h a (List.mem_cons_self a l)
    have ih' := ih fun x hx => h x (List.mem_cons_of_mem a hx)
    cases hb1 : p1 a <;> cases hb2 : p2 a <;> cases hb3 : p3 a <;> cases hb4 : p4 a <;>
      simp [hb1, hb2, hb3, hb4, List.filter_cons] at ha ⊢ <;> omega

lemma quantile90_mem (xs : List ℚ) (h : xs ≠ []) : quantile90 xs ∈ xs := by
  have hlen : (sort_asc xs).length = xs.length := (sort_asc_perm xs).length_eq
  have hpos : 0 < xs.length := List.length_pos.mpr h
  have hidx : (9 * (xs.length - 1) + 5) / 10 < (sort_asc xs).length := by
    rw [hlen]; omega
  have : quantile90 xs ∈ sort_asc xs := by
    unfold quantile90
    rw [List.getD_eq_get?, List.get?_eq_get hidx]
    exact List.get_mem _ _ _
  exact (sort_asc_perm xs).mem_iff.mp this

lemma inaktive_vips_all_nil_of_guard {rows : List Row} (h : risk_guard rows = false) :
    inaktive_vips_all rows = [] := by
  cases hk : kunden_last_order rows with
  | nil =>
    rw [inaktive_vips_all, List.filter_eq_nil_iff]
    intro a ha
    rw [vip_mit_datum, hk] at ha
    obtain ⟨v, _, rfl⟩ := List.mem_map.mp ha
    simp [List.find?]
  | cons b m =>
    cases hv : vip_df rows with
    | nil => rw [inaktive_vips_all, vip_mit_datum, hv]; rfl
    | cons c n => rw [risk_guard, hk, hv] at h; simp at h

lemma customer_keys_ne_nil {rows : List Row} (h : rows ≠ []) : customer_keys rows ≠ [] := by
  cases rows with
  | nil => exact absurd rfl h
  | cons r l =>
    intro he
    have hm : r.customer_id ∈ customer_keys (r :: l) := by
      rw [customer_keys, List.mem_dedup]
      exact List.mem_map_of_mem _ (List.mem_cons_self _ _)
    rw [he] at hm
    exact List.not_mem_nil _ hm

/-! ### Claim theorems -/

set_option maxRecDepth 100000 in
/-- C2, counterexample: on the spec's 3-customer scenario input (revenues
50, 500, 5000) the `reportUmsatz` output *does* contain a Premium row —
with zero customers — contrary to the claim that empty segments are
omitted. -/
theorem C2_counterexample :
    ∃ row ∈ report_umsatz csv_scenario.rows,
      row.umsatz_segment = "Premium" ∧ row.anzahl_kunden = 0 ∧
        row.segment_umsatz = 0 := by
  with_unfolding_all decide

/-- C2, amended: all four revenue-segment rows are always emitted — the
loop at lines 88-103 appends a row for every segment, empty segments
included (as rows with zero count and zero revenue); the output is the
revenue-descending reordering of exactly those four rows. -/
theorem C2_all_segments_emitted (rows : List Row) :
    (report_umsatz rows).Perm
      [seg_row "VIP" (vip_df rows) (total_umsatz rows),
       seg_row "Premium" (premium_df rows) (total_umsatz rows),
       seg_row "Standard" (standard_df rows) (total_umsatz rows),
       seg_row "Gering" (gering_df rows) (total_umsatz rows)] ∧
    ((report_umsatz rows).map (·.umsatz_segment)).Perm
      ["VIP", "Premium", "Standard", "Gering"] := by
  constructor
  · exact sort_desc_perm _ _
  · have h := (sort_desc_perm (·.segment_umsatz)
      [seg_row "VIP" (vip_df rows) (total_umsatz rows),
       seg_row "Premium" (premium_df rows) (total_umsatz rows),
       seg_row "Standard" (standard_df rows) (total_umsatz rows),
       seg_row "Gering" (gering_df rows) (total_umsatz rows)]).map (·.umsatz_segment)
    simpa [seg_row] using h

set_option maxRecDepth 100000 in
/-- C3, counterexample: for two customers with revenues 0 and 100 the
linear-interpolation 90th percentile is 90, but the code's
`quantile(0.9)` (polars default `nearest` interpolation) yields 100. -/
theorem C3_counterexample :
    vip_threshold csv_two.rows = 100 ∧
      linear_percentile90 (gesamt_list csv_two.rows) = 90 ∧
      vip_threshold csv_two.rows ≠ linear_percentile90 (gesamt_list csv_two.rows) := by
  with_unfolding_all decide

/-- C3, amended: for every non-empty input, `vip_threshold` is the
*nearest-rank* 90th percentile — the ascending-sorted revenue at index
`round(0.9*(n-1))` — and is therefore always one of the observed
per-customer revenues (a linearly interpolated value generally is not). -/
theorem C3_nearest_percentile (rows : List Row) (h : rows ≠ []) :
    vip_threshold rows ∈ gesamt_list rows ∧
      vip_threshold rows =
        (sort_asc (gesamt_list rows)).getD
          ((9 * ((gesamt_list rows).length - 1) + 5) / 10) 0 := by
  constructor
  · apply quantile90_mem
    have hk := customer_keys_ne_nil h
    rw [gesamt_list, kunden_umsatz]
    simp only [ne_eq, List.map_eq_nil]
    exact hk
  · rfl

set_option maxRecDepth 100000 in
/-- C3, amended, witness: on the scenario input the threshold is a data
value (5000). -/
theorem C3_nearest_percentile_witness :
    vip_threshold csv_scenario.rows ∈ gesamt_list csv_scenario.rows :=
  (C3_nearest_percentile csv_scenario.rows (by decide)).1

set_option maxRecDepth 100000 in
/-- C4, counterexample: on an input whose only date fails to parse, the
`except` fallback `max_date = datetime.now()` (line 173) makes the report
depend on the wall clock: two runs at different times produce different
reports (different `maxDate`). -/
theorem C4_counterexample : analyze 0 csv_nodate ≠ analyze 7 csv_nodate := by
  with_unfolding_all decide

/-- C4, amended: whenever at least one date in the input parses, the
report is a pure function of the file contents — it does not depend on
the wall clock `now`. -/
theorem C4_deterministic (n1 n2 : Int) (csv : Csv)
    (h : ∃ r ∈ csv.rows, (r.date).isSome = true) :
    analyze n1 csv = analyze n2 csv := by
  obtain ⟨r, hr, hd⟩ := h
  obtain ⟨d, hd'⟩ := Option.isSome_iff_exists.mp hd
  have hmem : d ∈ all_dates csv.rows := List.mem_filterMap.mpr ⟨r, hr, hd'⟩
  have hne : all_dates csv.rows ≠ [] := by
    intro he; rw [he] at hmem; exact List.not_mem_nil _ hmem
  obtain ⟨m, hm⟩ : ∃ m, max_date csv.rows = some m := by
    cases hmax : max_date csv.rows with
    | none => exact absurd (List.max?_eq_none_iff.mp hmax) hne
    | some m => exact ⟨m, rfl⟩
  by_cases h1 : missing_columns csv ≠ []
  · rw [analyze, analyze, if_pos h1, if_pos h1]
  · by_cases h2 : csv.rows = []
    · rw [analyze, analyze, if_neg h1, if_neg h1, if_pos h2, if_pos h2]
    · rw [analyze, analyze, if_neg h1, if_neg h1, if_neg h2, if_neg h2]
      simp [build_report, hm]

set_option maxRecDepth 100000 in
/-- C4, amended, witness: on the scenario input (which has parseable
dates) two runs at different wall-clock times agree. -/
theorem C4_deterministic_witness : analyze 0 csv_scenario = analyze 7 csv_scenario :=
  C4_deterministic 0 7 csv_scenario (by decide)

/-- C8: if any required column (`customer_id`, `transaction_id`, `total`,
`date`) is absent, the run aborts (`sys.exit(1)`, lines 42-47) and no
output document is produced. -/
theorem C8_missing_column_aborts (now : Int) (csv : Csv)
    (h : ∃ c ∈ required_columns, c ∉ csv.cols) :
    analyze now csv = none := by
  obtain ⟨c, hc, hnc⟩ := h
  have hmem : c ∈ missing_columns csv := by
    rw [missing_columns, List.mem_filter]
    exact ⟨hc, decide_eq_true hnc⟩
  have hne : missing_columns csv ≠ [] := by
    intro he; rw [he] at hmem; exact List.not_mem_nil _ hmem
  rw [analyze, if_pos hne]

/-- C8, witness: an input without the `date` column aborts. -/
theorem C8_missing_column_aborts_witness : analyze 0 csv_missing = none :=
  C8_missing_column_aborts 0 csv_missing ⟨"date", by decide, by decide⟩

/-- C9, counterexample: the claim fails for an input that lacks `country`
and has no data rows — the run aborts (uncaught `TypeError` formatting the
`None` quantile at line 76) instead of succeeding with empty region
reports. -/
theorem C9_counterexample :
    "country" ∉ csv_empty.cols ∧ missing_columns csv_empty = [] ∧
      analyze 0 csv_empty = none := by
  refine ⟨by decide, by decide, ?_⟩
  rw [analyze, if_neg (by decide), if_pos (show csv_empty.rows = [] from rfl)]

/-- C9, amended: for every input that has all required columns and at
least one data row but lacks the `country` column, the run succeeds and
the three region outputs are empty collections. -/
theorem C9_no_country_degrades (now : Int) (csv : Csv)
    (hmiss : missing_columns csv = []) (hrows : csv.rows ≠ [])
    (hc : "country" ∉ csv.cols) :
    analyze now csv = some (build_report now csv) ∧
      (build_report now csv).reportDach = [] ∧
      (build_report now csv).reportDachLaender = [] ∧
      (build_report now csv).reportAndereLaender = [] := by
  refine ⟨?_, ?_, ?_, ?_⟩
  · rw [analyze, if_neg (by simp [hmiss]), if_neg hrows]
  · show report_dach csv = []
    rw [report_dach, if_neg hc]
  · show report_dach_laender csv = []
    rw [report_dach_laender, if_neg hc]
  · show report_andere_laender csv = []
    rw [report_andere_laender, if_neg hc]

/-- C9, amended, witness: the scenario input (no `country` column, three
rows) succeeds with empty region reports. -/
theorem C9_no_country_degrades_witness :
    analyze 0 csv_scenario = some (build_report 0 csv_scenario) ∧
      (build_report 0 csv_scenario).reportDach = [] ∧
      (build_report 0 csv_scenario).reportDachLaender = [] ∧
      (build_report 0 csv_scenario).reportAndereLaender = [] :=
  C9_no_country_degrades 0 csv_scenario (by decide) (by decide) (by decide)

set_option maxRecDepth 100000 in
/-- C1, counterexample: with a single customer of revenue 500 the 90th
percentile is 500, so `vip_threshold = 500 < 1000`; that customer
satisfies both the VIP filter (500 ≥ 500) and the Standard filter
(200 ≤ 500 < 1000), the four segment counts sum to 2 ≠ 1, and the
segments are not a partition. -/
theorem C1_counterexample :
    vip_threshold csv_one.rows < 1000 ∧
      (∃ r ∈ kunden_umsatz csv_one.rows,
        r ∈ vip_df csv_one.rows ∧ r ∈ standard_df csv_one.rows) ∧
      (vip_df csv_one.rows).length + (premium_df csv_one.rows).length +
          (standard_df csv_one.rows).length + (gering_df csv_one.rows).length ≠
        (kunden_umsatz csv_one.rows).length := by
  with_unfolding_all decide

/-- C1, amended: whenever `vip_threshold ≥ 1000` (the regime the bands
were designed for), the four revenue segments are a total, mutually
exclusive partition of the customer set and their counts sum to the
distinct-customer count.  For `vip_threshold < 1000` the partition fails
(see the counterexample): a customer with `vip_threshold ≤ revenue < 1000`
lands in VIP and in Premium/Standard/Gering simultaneously. -/
theorem C1_partition (rows : List Row) (h : 1000 ≤ vip_threshold rows) :
    (∀ r ∈ kunden_umsatz rows,
      (r ∈ vip_df rows ∧ r ∉ premium_df rows ∧ r ∉ standard_df rows ∧ r ∉ gering_df rows) ∨
      (r ∉ vip_df rows ∧ r ∈ premium_df rows ∧ r ∉ standard_df rows ∧ r ∉ gering_df rows) ∨
      (r ∉ vip_df rows ∧ r ∉ premium_df rows ∧ r ∈ standard_df rows ∧ r ∉ gering_df rows) ∨
      (r ∉ vip_df rows ∧ r ∉ premium_df rows ∧ r ∉ standard_df rows ∧ r ∈ gering_df rows)) ∧
    (vip_df rows).length + (premium_df rows).length + (standard_df rows).length +
      (gering_df rows).length = (kunden_umsatz rows).length := by
  constructor
  · intro r hr
    have hv : r ∈ vip_df rows ↔ vip_threshold rows ≤ r.gesamt_umsatz := by
      simp [vip_df, List.mem_filter, hr]
    have hp : r ∈ premium_df rows ↔
        1000 ≤ r.gesamt_umsatz ∧ r.gesamt_umsatz < vip_threshold rows := by
      simp [premium_df, List.mem_filter, hr]
    have hs : r ∈ standard_df rows ↔
        200 ≤ r.gesamt_umsatz ∧ r.gesamt_umsatz < 1000 := by
      simp [standard_df, List.mem_filter, hr]
    have hg : r ∈ gering_df rows ↔ r.gesamt_umsatz < 200 := by
      simp [gering_df, List.mem_filter, hr]
    rcases lt_or_le r.gesamt_umsatz 200 with h200 | h200
    · refine Or.inr (Or.inr (Or.inr ⟨?_, ?_, ?_, hg.mpr h200⟩))
      · intro hm; have := hv.mp hm; linarith
      · intro hm; have := (hp.mp hm).1; linarith
      · intro hm; have := (hs.mp hm).1; linarith
    rcases lt_or_le r.gesamt_umsatz 1000 with h1000 | h1000
    · refine Or.inr (Or.inr (Or.inl ⟨?_, ?_, hs.mpr ⟨h200, h1000⟩, ?_⟩))
      · intro hm; have := hv.mp hm; linarith
      · intro hm; have := (hp.mp hm).1; linarith
      · intro hm; have := hg.mp hm; linarith
    rcases lt_or_le r.gesamt_umsatz (vip_threshold rows) with ht | ht
    · refine Or.inr (Or.inl ⟨?_, hp.mpr ⟨h1000, ht⟩, ?_, ?_⟩)
      · intro hm; have := hv.mp hm; linarith
      · intro hm; have := (hs.mp hm).2; linarith
      · intro hm; have := hg.mp hm; linarith
    · refine Or.inl ⟨hv.mpr ht, ?_, ?_, ?_⟩
      · intro hm; have := (hp.mp hm).2; linarith
      · intro hm; have := (hs.mp hm).2; linarith
      · intro hm; have := hg.mp hm; linarith
  · apply filter_four_length
    intro r _
    rcases lt_or_le r.gesamt_umsatz 200 with h200 | h200
    · rw [decide_eq_false (by intro hh; linarith : ¬vip_threshold rows ≤ r.gesamt_umsatz),
        decide_eq_false (by rintro ⟨h1, h2⟩; linarith :
          ¬(1000 ≤ r.gesamt_umsatz ∧ r.gesamt_umsatz < vip_threshold rows)),
        decide_eq_false (by rintro ⟨h1, h2⟩; linarith :
          ¬(200 ≤ r.gesamt_umsatz ∧ r.gesamt_umsatz < 1000)),
        decide_eq_true (h200 : r.gesamt_umsatz < 200)]
      rfl
    · rcases lt_or_le r.gesamt_umsatz 1000 with h1000 | h1000
      · rw [decide_eq_false (by intro hh; linarith : ¬vip_threshold rows ≤ r.gesamt_umsatz),
          decide_eq_false (by rintro ⟨h1, h2⟩; linarith :
            ¬(1000 ≤ r.gesamt_umsatz ∧ r.gesamt_umsatz < vip_threshold rows)),
          decide_eq_true (⟨h200, h1000⟩ :
            200 ≤ r.gesamt_umsatz ∧ r.gesamt_umsatz < 1000),
          decide_eq_false (by intro hh; linarith : ¬r.gesamt_umsatz < 200)]
        rfl
      · rcases lt_or_le r.gesamt_umsatz (vip_threshold rows) with ht | ht
        · rw [decide_eq_false (by intro hh; linarith : ¬vip_threshold rows ≤ r.gesamt_umsatz),
            decide_eq_true (⟨h1000, ht⟩ :
              1000 ≤ r.gesamt_umsatz ∧ r.gesamt_umsatz < vip_threshold rows),
            decide_eq_false (by rintro ⟨h1, h2⟩; linarith :
              ¬(200 ≤ r.gesamt_umsatz ∧ r.gesamt_umsatz < 1000)),
            decide_eq_false (by intro hh; linarith : ¬r.gesamt_umsatz < 200)]
          rfl
        · rw [decide_eq_true (ht : vip_threshold rows ≤ r.gesamt_umsatz),
            decide_eq_false (by rintro ⟨h1, h2⟩; linarith :
              ¬(1000 ≤ r.gesamt_umsatz ∧ r.gesamt_umsatz < vip_threshold rows)),
            decide_eq_false (by rintro ⟨h1, h2⟩; linarith :
              ¬(200 ≤ r.gesamt_umsatz ∧ r.gesamt_umsatz < 1000)),
            decide_eq_false (by intro hh; linarith : ¬r.gesamt_umsatz < 200)]
          rfl

set_option maxRecDepth 100000 in
/-- C1, amended, witness: on the scenario input the threshold is 5000 ≥
1000 and the four segment counts sum to the customer count. -/
theorem C1_partition_witness :
    (vip_df csv_scenario.rows).length + (premium_df csv_scenario.rows).length +
        (standard_df csv_scenario.rows).length + (gering_df csv_scenario.rows).length =
      (kunden_umsatz csv_scenario.rows).length :=
  (C1_partition csv_scenario.rows (by with_unfolding_all decide)).2

lemma cust_dates_sublist (rows : List Row) (k : CustId) :
    (cust_dates rows k).Sublist (all_dates rows) :=
  List.Sublist.filterMap _ (List.filter_sublist rows)

/-- C5: for every entry of `kunden_last_order`, `tage_inaktiv` is null
exactly when the customer has no parseable date; when defined it is
non-negative and equals the whole-day difference between the dataset's
maximum date and the customer's own maximum date.  Moreover every
customer with at least one parseable date has such an entry with a
defined `tage_inaktiv`. -/
theorem C5_days_inactive (rows : List Row) :
    (∀ lo ∈ kunden_last_order rows,
        (lo.tage_inaktiv = none ↔ cust_dates rows lo.customer_id = []) ∧
        (∀ t, lo.tage_inaktiv = some t →
            0 ≤ t ∧ ∃ m d, max_date rows = some m ∧
              (cust_dates rows lo.customer_id).max? = some d ∧ t = m - d)) ∧
    (∀ k ∈ customer_keys rows, cust_dates rows k ≠ [] →
        ∃ lo ∈ kunden_last_order rows,
          lo.customer_id = k ∧ lo.tage_inaktiv.isSome = true) := by
  constructor
  · intro lo hlo
    rw [kunden_last_order] at hlo
    cases hmax : max_date rows with
    | none => rw [hmax] at hlo; cases hlo
    | some m =>
      rw [hmax] at hlo
      obtain ⟨k, hk, rfl⟩ := List.mem_map.mp hlo
      constructor
      · cases hd : (cust_dates rows k).max? with
        | none => simp [hd, List.max?_eq_none_iff.mp hd]
        | some d =>
          simp only [hd, Option.map_some', iff_false, ne_eq]
          constructor
          · intro he; cases he
          · intro he; rw [he] at hd; cases hd
      · intro t ht
        cases hd : (cust_dates rows k).max? with
        | none => rw [hd] at ht; cases ht
        | some d =>
          rw [hd] at ht
          simp only [Option.map_some', Option.some_inj] at ht
          subst ht
          have hdm : d ∈ cust_dates rows k := int_max?_mem hd
          have hda : d ∈ all_dates rows := (cust_dates_sublist rows k).subset hdm
          have hle : d ≤ m := int_le_max? hmax d hda
          exact ⟨by omega, m, d, rfl, rfl, rfl⟩
  · intro k hk hne
    cases hmax : max_date rows with
    | none =>
      exfalso
      obtain ⟨d, hd⟩ := List.exists_mem_of_ne_nil _ hne
      have hda : d ∈ all_dates rows := (cust_dates_sublist rows k).subset hd
      rw [max_date, List.max?_eq_none_iff] at hmax
      rw [hmax] at hda
      exact List.not_mem_nil _ hda
    | some m =>
      have hmem : ({ customer_id := k,
                     letzte_bestellung := (cust_dates rows k).max?,
                     tage_inaktiv := ((cust_dates rows k).max?).map (fun d => m - d) }
            : LastOrder) ∈ kunden_last_order rows := by
        rw [kunden_last_order, hmax]
        exact List.mem_map_of_mem _ hk
      refine ⟨_, hmem, rfl, ?_⟩
      cases hd : (cust_dates rows k).max? with
      | none => exact absurd (List.max?_eq_none_iff.mp hd) hne
      | some d => simp [hd]

set_option maxRecDepth 100000 in
/-- C5, witness: on the two-VIP input, customer 2's entry has
`tage_inaktiv = 40` and the theorem yields `40 ≥ 0` together with its
decomposition as maximum date minus last order date. -/
theorem C5_days_inactive_witness :
    (0:Int) ≤ 40 ∧ ∃ m d, max_date csv_vips.rows = some m ∧
      (cust_dates csv_vips.rows (⟨⟨2, true⟩, some 60, some 40⟩ :
          LastOrder).customer_id).max? = some d ∧ (40:Int) = m - d :=
  ((C5_days_inactive csv_vips.rows).1 ⟨⟨2, true⟩, some 60, some 40⟩
    (by with_unfolding_all decide)).2 40 rfl

/-- C6: the three activity segments are a total, mutually exclusive
partition of exactly the customers with a resolvable last-order date
(an entry with a defined `tage_inaktiv` lies in exactly one segment; an
entry with null `tage_inaktiv` lies in none), and every customer —
resolvable date or not — appears in at least one revenue segment. -/
theorem C6_activity_partition (rows : List Row) :
    (∀ lo ∈ kunden_last_order rows, ∀ t, lo.tage_inaktiv = some t →
        (lo ∈ aktiv_df rows ∧ lo ∉ inaktiv_df rows ∧ lo ∉ verloren_df rows) ∨
        (lo ∉ aktiv_df rows ∧ lo ∈ inaktiv_df rows ∧ lo ∉ verloren_df rows) ∨
        (lo ∉ aktiv_df rows ∧ lo ∉ inaktiv_df rows ∧ lo ∈ verloren_df rows)) ∧
    (∀ lo ∈ kunden_last_order rows, lo.tage_inaktiv = none →
        lo ∉ aktiv_df rows ∧ lo ∉ inaktiv_df rows ∧ lo ∉ verloren_df rows) ∧
    (∀ k ∈ customer_keys rows,
        rollup_of rows k ∈ vip_df rows ∨ rollup_of rows k ∈ premium_df rows ∨
        rollup_of rows k ∈ standard_df rows ∨ rollup_of rows k ∈ gering_df rows) := by
  refine ⟨?_, ?_, ?_⟩
  · intro lo hlo t ht
    have ha : lo ∈ aktiv_df rows ↔ t ≤ 30 := by
      simp [aktiv_df, List.mem_filter, hlo, ht]
    have hi : lo ∈ inaktiv_df rows ↔ (30 < t ∧ t ≤ 90) := by
      simp [inaktiv_df, List.mem_filter, hlo, ht]
    have hv : lo ∈ verloren_df rows ↔ 90 < t := by
      simp [verloren_df, List.mem_filter, hlo, ht]
    rcases le_or_lt t 30 with h30 | h30
    · refine Or.inl ⟨ha.mpr h30, ?_, ?_⟩
      · intro hm; have := (hi.mp hm).1; omega
      · intro hm; have := hv.mp hm; omega
    rcases le_or_lt t 90 with h90 | h90
    · refine Or.inr (Or.inl ⟨?_, hi.mpr ⟨h30, h90⟩, ?_⟩)
      · intro hm; have := ha.mp hm; omega
      · intro hm; have := hv.mp hm; omega
    · refine Or.inr (Or.inr ⟨?_, ?_, hv.mpr h90⟩)
      · intro hm; have := ha.mp hm; omega
      · intro hm; have := (hi.mp hm).2; omega
  · intro lo hlo ht
    refine ⟨?_, ?_, ?_⟩ <;>
      · intro hm
        first
          | (rw [aktiv_df, List.mem_filter] at hm)
          | (rw [inaktiv_df, List.mem_filter] at hm)
          | (rw [verloren_df, List.mem_filter] at hm)
        rw [ht] at hm
        cases hm.2
  · intro k hk
    have hr : rollup_of rows k ∈ kunden_umsatz rows := List.mem_map_of_mem _ hk
    set g := (rollup_of rows k).gesamt_umsatz with hg
    rcases le_or_lt (vip_threshold rows) g with ht | ht
    · exact Or.inl (List.mem_filter.mpr ⟨hr, decide_eq_true ht⟩)
    rcases le_or_lt 1000 g with h1000 | h1000
    · exact Or.inr (Or.inl (List.mem_filter.mpr ⟨hr, decide_eq_true ⟨h1000, ht⟩⟩))
    rcases le_or_lt 200 g with h200 | h200
    · exact Or.inr (Or.inr (Or.inl (List.mem_filter.mpr ⟨hr, decide_eq_true ⟨h200, h1000⟩⟩)))
    · exact Or.inr (Or.inr (Or.inr (List.mem_filter.mpr ⟨hr, decide_eq_true h200⟩)))

set_option maxRecDepth 100000 in
/-- C6, witness: on the two-VIP input, the entry of customer 2 (40 days
inactive) lies in exactly one activity segment. -/
theorem C6_activity_partition_witness :
    ((⟨⟨2, true⟩, some 60, some 40⟩ : LastOrder) ∈ aktiv_df csv_vips.rows ∧
        (⟨⟨2, true⟩, some 60, some 40⟩ : LastOrder) ∉ inaktiv_df csv_vips.rows ∧
        (⟨⟨2, true⟩, some 60, some 40⟩ : LastOrder) ∉ verloren_df csv_vips.rows) ∨
      ((⟨⟨2, true⟩, some 60, some 40⟩ : LastOrder) ∉ aktiv_df csv_vips.rows ∧
        (⟨⟨2, true⟩, some 60, some 40⟩ : LastOrder) ∈ inaktiv_df csv_vips.rows ∧
        (⟨⟨2, true⟩, some 60, some 40⟩ : LastOrder) ∉ verloren_df csv_vips.rows) ∨
      ((⟨⟨2, true⟩, some 60, some 40⟩ : LastOrder) ∉ aktiv_df csv_vips.rows ∧
        (⟨⟨2, true⟩, some 60, some 40⟩ : LastOrder) ∉ inaktiv_df csv_vips.rows ∧
        (⟨⟨2, true⟩, some 60, some 40⟩ : LastOrder) ∈ verloren_df csv_vips.rows) :=
  (C6_activity_partition csv_vips.rows).1 ⟨⟨2, true⟩, some 60, some 40⟩
    (by with_unfolding_all decide) 40 rfl

lemma inaktive_vips_all_spec {rows : List Row} {v : VipJoin}
    (h : v ∈ inaktive_vips_all rows) :
    vip_threshold rows ≤ v.gesamt_umsatz ∧ ∃ t, v.tage_inaktiv = some t ∧ 30 < t := by
  rw [inaktive_vips_all, List.mem_filter] at h
  obtain ⟨hmem, hball⟩ := h
  constructor
  · rw [vip_mit_datum] at hmem
    obtain ⟨w, hw, hv⟩ := List.mem_map.mp hmem
    have hwv : v.gesamt_umsatz = w.gesamt_umsatz := by
      cases hfind : (kunden_last_order rows).find?
          (fun lo => decide (lo.customer_id = w.customer_id)) <;>
        rw [hfind] at hv <;> rw [← hv]
    rw [hwv]
    exact decide_eq_true_eq.mp (List.mem_filter.mp hw).2
  · cases ht : v.tage_inaktiv with
    | none => rw [ht] at hball; cases hball
    | some t =>
      rw [ht] at hball
      exact ⟨t, rfl, by simpa using hball⟩

lemma inaktive_vips_top_nil_of_guard {rows : List Row} (h : risk_guard rows = false) :
    inaktive_vips_top rows = [] := by
  rw [inaktive_vips_top, inaktive_vips_all_nil_of_guard h]
  rfl

lemma mem_of_mem_inaktive_vips_top {rows : List Row} {v : VipJoin}
    (hv : v ∈ inaktive_vips_top rows) : v ∈ inaktive_vips_all rows := by
  rw [inaktive_vips_top] at hv
  exact (sort_desc_perm (fun x => x.gesamt_umsatz) (inaktive_vips_all rows)).subset
    ((List.take_sublist 30 _).subset hv)

set_option maxRecDepth 100000 in
/-- C7, counterexample: on an input whose only inactive VIP has a
non-numeric `customer_id`, the full-set summary counts one inactive VIP
(40 days inactive), yet `topInaktiveVips` is empty — so the list does not
contain exactly the VIP-segment customers with `days_inactive > 30`. -/
theorem C7_counterexample :
    inaktive_vips_count csv_badid.rows = 1 ∧
      (inaktive_vips_all csv_badid.rows).map (fun v => v.tage_inaktiv) = [some 40] ∧
      top_inaktive_vips csv_badid.rows = [] := by
  with_unfolding_all decide

/-- C7, amended: provided every inactive VIP's `customer_id` serializes
(is numeric — otherwise the loop at lines 260-273 raises and truncates the
list, see C10), `topInaktiveVips` consists exactly of the VIP-segment
customers with `days_inactive > 30` (a VIP with no resolvable date is
excluded), sorted by revenue descending and capped to the top 30, while
the scalar summaries `inaktiveVips` and `verlorenerUmsatz` are computed
over the full inactive-VIP set before the cap. -/
theorem C7_top_inactive_vips (rows : List Row)
    (hnum : ∀ v ∈ inaktive_vips_all rows, v.customer_id.num = true) :
    (∀ e ∈ top_inaktive_vips rows, ∃ v ∈ inaktive_vips_all rows,
        e = mk_top_vip v ∧ vip_threshold rows ≤ v.gesamt_umsatz ∧
        ∃ t, v.tage_inaktiv = some t ∧ 30 < t) ∧
    (top_inaktive_vips rows).length = min (inaktive_vips_all rows).length 30 ∧
    ((top_inaktive_vips rows).map (·.gesamt_umsatz)).Pairwise (fun a b => b ≤ a) ∧
    inaktive_vips_count rows = (inaktive_vips_all rows).length ∧
    verlorener_umsatz_total rows = ((inaktive_vips_all rows).map (·.gesamt_umsatz)).sum ∧
    ((inaktive_vips_all rows).length ≤ 30 →
        ∀ v ∈ inaktive_vips_all rows, mk_top_vip v ∈ top_inaktive_vips rows) := by
  cases hg : risk_guard rows with
  | false =>
    have hnil := inaktive_vips_all_nil_of_guard hg
    rw [top_inaktive_vips, inaktive_vips_count, verlorener_umsatz_total, hg, hnil]
    simp
  | true =>
    have hsub : ∀ v ∈ inaktive_vips_top rows, v ∈ inaktive_vips_all rows :=
      fun v hv => mem_of_mem_inaktive_vips_top hv
    have htop : top_inaktive_vips rows = (inaktive_vips_top rows).map mk_top_vip := by
      rw [top_inaktive_vips, hg, if_pos rfl]
      exact serialize_top_all_num _ (fun v hv => hnum v (hsub v hv))
    refine ⟨?_, ?_, ?_, ?_, ?_, ?_⟩
    · intro e he
      rw [htop] at he
      obtain ⟨v, hv, rfl⟩ := List.mem_map.mp he
      obtain ⟨h1, h2⟩ := inaktive_vips_all_spec (hsub v hv)
      exact ⟨v, hsub v hv, rfl, h1, h2⟩
    · rw [htop, List.length_map, inaktive_vips_top, List.length_take,
        (sort_desc_perm (·.gesamt_umsatz) (inaktive_vips_all rows)).length_eq]
      omega
    · rw [htop, List.map_map]
      have hpw : (inaktive_vips_top rows).Pairwise
          (fun x y => y.gesamt_umsatz ≤ x.gesamt_umsatz) := by
        rw [inaktive_vips_top]
        exact List.Pairwise.sublist (List.take_sublist 30 _)
          (sort_desc_sorted (fun x => x.gesamt_umsatz) (inaktive_vips_all rows))
      rw [List.pairwise_map]
      exact hpw.imp (fun hxy => round2_mono hxy)
    · rw [inaktive_vips_count, hg, if_pos rfl]
    · rw [verlorener_umsatz_total, hg, if_pos rfl]
    · intro h30 v hv
      rw [htop]
      apply List.mem_map_of_mem
      rw [inaktive_vips_top, List.take_of_length_le]
      · exact (sort_desc_perm (·.gesamt_umsatz) (inaktive_vips_all rows)).mem_iff.mpr hv
      · rw [(sort_desc_perm (·.gesamt_umsatz) (inaktive_vips_all rows)).length_eq]
        exact h30

set_option maxRecDepth 400000 in
/-- C7, amended, witness: on the two-VIP input the VIP inactive 40 days
appears in the top list (and by the theorem's first conjunct every listed
entry is inactive more than 30 days, so the VIP inactive 20 days does
not appear). -/
theorem C7_top_inactive_vips_witness :
    mk_top_vip ⟨⟨2, true⟩, 1, 300, some 60, some 40⟩ ∈
      top_inaktive_vips csv_vips.rows := by
  have h := C7_top_inactive_vips csv_vips.rows (by with_unfolding_all decide)
  exact h.2.2.2.2.2 (by with_unfolding_all decide) _ (by with_unfolding_all decide)

/-- C10: on any successful run, `topInaktiveVips` is the serialization of
the capped sorted list truncated at the first record whose `customer_id`
is not convertible to float (the `ValueError` is swallowed by the `try`
at lines 244-279), while the full-set summaries `inaktiveVips` and
`verlorenerUmsatz`, computed before the loop, are still reported; when
such a record exists among the capped entries the emitted list is
strictly shorter than the capped list, so the list and the summaries
disagree. -/
theorem C10_serialization_truncates (now : Int) (csv : Csv)
    (h1 : missing_columns csv = []) (h2 : csv.rows ≠ []) :
    analyze now csv = some (build_report now csv) ∧
    (build_report now csv).topInaktiveVips =
      ((inaktive_vips_top csv.rows).takeWhile (fun v => v.customer_id.num)).map
        mk_top_vip ∧
    (build_report now csv).inaktiveVips = (inaktive_vips_all csv.rows).length ∧
    (build_report now csv).verlorenerUmsatz =
      round2 (((inaktive_vips_all csv.rows).map (·.gesamt_umsatz)).sum) ∧
    ((∃ v ∈ inaktive_vips_top csv.rows, v.customer_id.num = false) →
        (build_report now csv).topInaktiveVips.length <
          (inaktive_vips_top csv.rows).length) := by
  have htop : (build_report now csv).topInaktiveVips =
      ((inaktive_vips_top csv.rows).takeWhile (fun v => v.customer_id.num)).map
        mk_top_vip := by
    show top_inaktive_vips csv.rows = _
    cases hg : risk_guard csv.rows with
    | false =>
      rw [top_inaktive_vips, hg, inaktive_vips_top_nil_of_guard hg]
      rfl
    | true =>
      rw [top_inaktive_vips, hg, if_pos rfl, serialize_top_eq]
  refine ⟨?_, htop, ?_, ?_, ?_⟩
  · rw [analyze, if_neg (by simp [h1]), if_neg h2]
  · show inaktive_vips_count csv.rows = _
    cases hg : risk_guard csv.rows with
    | false => rw [inaktive_vips_count, hg, inaktive_vips_all_nil_of_guard hg]; rfl
    | true => rw [inaktive_vips_count, hg, if_pos rfl]
  · show round2 (verlorener_umsatz_total csv.rows) = _
    cases hg : risk_guard csv.rows with
    | false => rw [verlorener_umsatz_total, hg, inaktive_vips_all_nil_of_guard hg]; rfl
    | true => rw [verlorener_umsatz_total, hg, if_pos rfl]
  · intro hbad
    rw [htop, List.length_map]
    exact takeWhile_length_lt _ _ hbad

set_option maxRecDepth 100000 in
/-- C10, witness: on the input with a non-numeric inactive-VIP id the run
succeeds but the emitted top list is strictly shorter than the capped
inactive-VIP list. -/
theorem C10_serialization_truncates_witness :
    analyze 0 csv_badid = some (build_report 0 csv_badid) ∧
      (build_report 0 csv_badid).topInaktiveVips.length <
        (inaktive_vips_top csv_badid.rows).length := by
  have h := C10_serialization_truncates 0 csv_badid (by decide) (by decide)
  exact ⟨h.1, h.2.2.2.2 (by with_unfolding_all decide)⟩

end SimpleAnalyzer
